import Mathlib

/-
Verification of the GLBGCN skeleton-action-recognition backbone
(src/mmaction2/mmaction/models/backbones/gblgcn.py).

The development uses two complementary shallow embeddings of the PyTorch
code:

* a value semantics: tensors are total functions from (Nat) indices to ℚ.
  Convolutions, linear layers and the einsum contraction are written out as
  finite sums exactly following the source formulas.  BatchNorm layers are
  modelled in evaluation mode: a BatchNorm in eval mode computes, per
  channel j, `x ↦ gamma_j / sqrt(var_j + eps) * x + (beta_j - ...)`, i.e. an
  affine map per channel whose two coefficients are determined by the
  learned weights and the running statistics; we take those per-channel
  coefficients (scale, shift) themselves as the layer's parameters.
  Dropout layers are the identity in evaluation mode.

* a shape semantics: `Option`-valued functions that compute the shape of
  every intermediate tensor and return `none` exactly when PyTorch would
  raise a shape error (BatchNorm feature-count mismatch, Linear in-feature
  mismatch, einsum dimension mismatch, cat mismatch, empty-dimension
  indexing, non-positive convolution output length, broadcast failure).

Index conventions: a tensor of shape (d0, d1, ...) is a function taking the
d0 index first.  Out-of-range indices are never observed by the shape-correct
computation paths; the shape semantics carries the actual sizes.
-/

/-- A rank-3 tensor (e.g. the adjacency stack A of shape (K, V, V)). -/
abbrev Tensor3 : Type := Nat → Nat → Nat → ℚ

/-- A rank-4 tensor (N, C, T, V). -/
abbrev Tensor4 : Type := Nat → Nat → Nat → Nat → ℚ

/-- A rank-5 tensor (N, C, T, V, M). -/
abbrev Tensor5 : Type := Nat → Nat → Nat → Nat → Nat → ℚ

/-- Output length of a 1-D convolution along time: kernel `k`, symmetric
zero padding `p`, stride `s`, input length `T`.  This is PyTorch's
`floor((T + 2p - k) / s) + 1` (natural subtraction; the shape semantics
separately requires `T + 2p ≥ k` so the subtraction never truncates on a
shape-correct run). -/
def convOutLen (k p s T : Nat) : Nat := (T + 2 * p - k) / s + 1

/-- Value semantics of `nn.Conv2d(inC, outC, (tk, 1), stride=(ts, 1),
padding=(tp, 0), dilation=(td, 1))` applied to a tensor whose time
dimension has length `tLen`: positions outside `[0, tLen)` read the zero
padding.  The spatial kernel extent is 1, so only the time axis is
convolved. -/
def conv2dT (inC tk ts tp td : Nat) (w : Nat → Nat → Nat → ℚ) (b : Nat → ℚ)
    (tLen : Nat) (x : Tensor4) : Tensor4 :=
  fun n j t v =>
    b j + ∑ c ∈ Finset.range inC, ∑ dt ∈ Finset.range tk,
      w j c dt *
        (if t * ts + dt * td < tp then 0
         else if t * ts + dt * td - tp < tLen then x n c (t * ts + dt * td - tp) v
         else 0)

/-- Parameters of `ConvTemporalGraphical` (gblgcn.py lines 134-153): the
constructor stores `kernel_size` and builds a single Conv2d with
`out_channels * kernel_size` output channels, kernel `(t_kernel_size, 1)`,
padding `(t_padding, 0)`, stride `(t_stride, 1)`, dilation
`(t_dilation, 1)`.  The conv weight is indexed (output channel, input
channel, temporal tap). -/
structure ConvTemporalGraphical where
  in_channels : Nat
  out_channels : Nat
  kernel_size : Nat
  t_kernel_size : Nat := 1
  t_stride : Nat := 1
  t_padding : Nat := 0
  t_dilation : Nat := 1
  weight : Nat → Nat → Nat → ℚ
  bias : Nat → ℚ

namespace ConvTemporalGraphical

/-- The stored convolution `self.conv` applied to the input (line 159). -/
def convOut (u : ConvTemporalGraphical) (tLen : Nat) (x : Tensor4) : Tensor4 :=
  conv2dT u.in_channels u.t_kernel_size u.t_stride u.t_padding u.t_dilation
    u.weight u.bias tLen x

/-- Line 161-162: `n, kc, t, v = x.size(); x = x.view(n, K, kc // K, t, v)`.
The conv output has `kc = out_channels * kernel_size` channels by
construction, and splitting the channel axis into `(K, kc // K)` sends the
element at index `(k, c)` to flat channel `k * (kc // K) + c`. -/
def viewed (u : ConvTemporalGraphical) (tLen : Nat) (x : Tensor4)
    (n k c t v : Nat) : ℚ :=
  u.convOut tLen x n (k * (u.out_channels * u.kernel_size / u.kernel_size) + c) t v

/-- Line 163: `torch.einsum('nkctv,kvw->nctw', (x, adj_mat))`, summing `k`
over the kernel axis and `v` over the `V` graph nodes of `x`. -/
def einsum (u : ConvTemporalGraphical) (V tLen : Nat) (x : Tensor4)
    (A : Tensor3) : Tensor4 :=
  fun n c t w =>
    ∑ k ∈ Finset.range u.kernel_size, ∑ v ∈ Finset.range V,
      u.viewed tLen x n k c t v * A k v w

/-- The computation of `forward` after the assertion: conv, view, einsum,
and the unchanged adjacency passed through (lines 159-165). -/
def coreForward (u : ConvTemporalGraphical) (V tLen : Nat) (x : Tensor4)
    (A : Tensor3) : Tensor4 × Tensor3 :=
  (u.einsum V tLen x A, A)

/-- `ConvTemporalGraphical.forward` (lines 155-165): `assert adj_mat.size(0)
== self.kernel_size`, then conv / view / einsum.  `adjK` is the adjacency
tensor's first dimension; a failed assertion is `none`. -/
def forward (u : ConvTemporalGraphical) (V tLen : Nat) (x : Tensor4)
    (A : Tensor3) (adjK : Nat) : Option (Tensor4 × Tensor3) :=
  if adjK = u.kernel_size then some (u.coreForward V tLen x A) else none

end ConvTemporalGraphical

/-- C2: for inputs whose adjacency kernel dimension matches the configured
kernel size, `ConvTemporalGraphical.forward` succeeds and its first
component is the trilinear contraction `out[n,c,t,w] = Σ_{k<K} Σ_{v<V}
convOut[n, k*out_channels + c, t, v] * A[k,v,w]` (the reshaped conv output
contracted against A), and its second component is the adjacency tensor A
itself, unchanged. -/
theorem ConvTemporalGraphical.forward_contracts (u : ConvTemporalGraphical)
    (hK : 0 < u.kernel_size) (V tLen : Nat) (x : Tensor4) (A : Tensor3) :
    u.forward V tLen x A u.kernel_size =
      some (fun n c t w =>
        ∑ k ∈ Finset.range u.kernel_size, ∑ v ∈ Finset.range V,
          u.convOut tLen x n (k * u.out_channels + c) t v * A k v w, A) := by
  have hdiv : u.out_channels * u.kernel_size / u.kernel_size = u.out_channels :=
    Nat.mul_div_cancel u.out_channels hK
  unfold forward coreForward einsum viewed
  simp [hdiv]

/-- A sample unit with concrete parameters, used to instantiate theorems
with hypotheses at a concrete input. -/
def ctgSample : ConvTemporalGraphical :=
  { in_channels := 1, out_channels := 1, kernel_size := 1,
    weight := fun _ _ _ => 1, bias := fun _ => 0 }

/-- Witness for C2 at the concrete unit `ctgSample`, `V = 1`, `tLen = 1`,
the all-ones input and adjacency. -/
theorem ConvTemporalGraphical.forward_contracts_witness :
    ctgSample.forward 1 1 (fun _ _ _ _ => 1) (fun _ _ _ => 1)
        ctgSample.kernel_size =
      some (fun n c t w =>
        ∑ k ∈ Finset.range ctgSample.kernel_size, ∑ v ∈ Finset.range 1,
          ctgSample.convOut 1 (fun _ _ _ _ => 1) n (k * ctgSample.out_channels + c) t v *
            (fun _ _ _ => (1 : ℚ)) k v w, fun _ _ _ => 1) :=
  ConvTemporalGraphical.forward_contracts ctgSample (by decide) 1 1
    (fun _ _ _ _ => 1) (fun _ _ _ => 1)

/-- C7: `ConvTemporalGraphical.forward` fails (assertion) exactly when the
adjacency tensor's first dimension differs from the configured kernel
size; when they are equal it proceeds and returns the computed pair. -/
theorem ConvTemporalGraphical.forward_assert_iff (u : ConvTemporalGraphical)
    (V tLen : Nat) (x : Tensor4) (A : Tensor3) (adjK : Nat) :
    (u.forward V tLen x A adjK = none ↔ adjK ≠ u.kernel_size) ∧
      (adjK = u.kernel_size →
        u.forward V tLen x A adjK = some (u.coreForward V tLen x A)) := by
  constructor
  · unfold ConvTemporalGraphical.forward
    split <;> simp_all
  · intro h
    unfold ConvTemporalGraphical.forward
    simp [h]

/-- A BatchNorm layer in evaluation mode: per channel `j` an affine map
`x ↦ scale j * x + shift j` (the coefficients subsume weight, bias and the
running statistics). -/
structure BatchNormParams where
  scale : Nat → ℚ
  shift : Nat → ℚ

/-- Apply an eval-mode BatchNorm2d to a (N, C, T, V) tensor: the affine
coefficients attach to the channel axis. -/
def BatchNormParams.apply (p : BatchNormParams) (x : Tensor4) : Tensor4 :=
  fun n c t v => p.scale c * x n c t v + p.shift c

/-- A 1x1 `nn.Conv2d(inC, outC, kernel_size=1, stride=(stride, 1))` with
bias, as used by the learned residual projection (gblgcn.py lines 82-87):
no padding, so output time `t` reads input time `t * stride`. -/
structure Conv1x1 where
  inC : Nat
  weight : Nat → Nat → ℚ
  bias : Nat → ℚ

/-- Value semantics of the strided 1x1 convolution. -/
def Conv1x1.apply (c : Conv1x1) (stride : Nat) (x : Tensor4) : Tensor4 :=
  fun n j t v => c.bias j + ∑ i ∈ Finset.range c.inC, c.weight j i * x n i (t * stride) v

/-- The three residual strategies of `GLBGCNBlock.__init__` (lines 75-87):
`self.residual = zero`, `self.residual = identity`, or a learned
1x1-convolution followed by BatchNorm. -/
inductive ResidualBranch where
  | zero
  | ident
  | proj (conv : Conv1x1) (stride : Nat) (bn : BatchNormParams)

/-- Evaluate a residual branch on the block input, following `zero` (line
13-15), `identity` (line 18-20) and the `nn.Sequential(Conv2d, BatchNorm2d)`
projection (lines 82-87). -/
def ResidualBranch.apply : ResidualBranch → Tensor4 → Tensor4
  | .zero, _ => fun _ _ _ _ => 0
  | .ident, x => x
  | .proj conv stride bn, x => bn.apply (conv.apply stride x)

/-- Pointwise ReLU on a rank-4 tensor. -/
def relu4 (x : Tensor4) : Tensor4 := fun n c t v => max (x n c t v) 0

/-- `GLBGCNBlock` (gblgcn.py lines 54-97): architecture data plus the
weights of the submodules built in `__init__`.  `kernel_size` is the
(temporal, spatial) pair; `gcnW`/`gcnB` are the weights of the
`ConvTemporalGraphical` unit's conv (a 1x1 conv in time since it is built
with the default `t_kernel_size=1`); `tcnW`/`tcnB` the temporal conv's
weights (indexed output channel, input channel, temporal tap < kernel);
`bn1`/`bn2` the two BatchNorm2d layers of `self.tcn`; `resConvW`/`resConvB`
and `resBn` the learned residual projection's parameters (present as
weights even when the zero or identity branch is selected, mirroring that
the branch choice is made at construction).  The `nn.Dropout` of `self.tcn`
is the identity in evaluation mode. -/
structure GLBGCNBlock where
  in_channels : Nat
  out_channels : Nat
  kernel_size : Nat × Nat
  stride : Nat := 1
  residual : Bool := true
  gcnW : Nat → Nat → Nat → ℚ
  gcnB : Nat → ℚ
  bn1 : BatchNormParams
  tcnW : Nat → Nat → Nat → ℚ
  tcnB : Nat → ℚ
  bn2 : BatchNormParams
  resConvW : Nat → Nat → ℚ
  resConvB : Nat → ℚ
  resBn : BatchNormParams

namespace GLBGCNBlock

/-- Lines 67-68: `self.gcn = ConvTemporalGraphical(in_channels,
out_channels, kernel_size[1])` with the constructor defaults for the
temporal parameters. -/
def gcnUnit (b : GLBGCNBlock) : ConvTemporalGraphical :=
  { in_channels := b.in_channels, out_channels := b.out_channels,
    kernel_size := b.kernel_size.2, weight := b.gcnW, bias := b.gcnB }

/-- Line 65: `padding = ((kernel_size[0] - 1) // 2, 0)`. -/
def padding (b : GLBGCNBlock) : Nat := (b.kernel_size.1 - 1) / 2

/-- Lines 69-73: `self.tcn = Sequential(BatchNorm2d, ReLU, Conv2d((k,1),
(stride,1), padding), BatchNorm2d, Dropout)`; `tLen` is the input's time
length (the gcn unit's 1x1 conv preserves it).  Dropout is the identity in
evaluation mode. -/
def tcn (b : GLBGCNBlock) (tLen : Nat) (x : Tensor4) : Tensor4 :=
  b.bn2.apply
    (conv2dT b.out_channels b.kernel_size.1 b.stride b.padding 1 b.tcnW b.tcnB
      tLen (relu4 (b.bn1.apply x)))

/-- The residual projection's Conv2d (lines 82-87). -/
def resConv (b : GLBGCNBlock) : Conv1x1 :=
  { inC := b.in_channels, weight := b.resConvW, bias := b.resConvB }

/-- Lines 75-87: the construction-time three-way selection of
`self.residual`: constant zero when `residual=False`; identity when the
channel counts agree and the stride is 1; otherwise the learned strided
1x1-convolution followed by BatchNorm. -/
def residualBranch (b : GLBGCNBlock) : ResidualBranch :=
  if b.residual = false then .zero
  else if b.in_channels = b.out_channels ∧ b.stride = 1 then .ident
  else .proj b.resConv b.stride b.resBn

/-- `GLBGCNBlock.forward` (lines 91-97): `res = self.residual(x); x, adj =
self.gcn(x, adj); x = self.tcn(x) + res; return self.relu(x), adj`.
`tLen` and `V` are the input tensor's time and node dimensions (needed by
the temporal conv's padding bound and the einsum's node sum). -/
def forward (b : GLBGCNBlock) (tLen V : Nat) (x : Tensor4) (adj_mat : Tensor3) :
    Tensor4 × Tensor3 :=
  let res := b.residualBranch.apply x
  let g := b.gcnUnit.coreForward V tLen x adj_mat
  (relu4 (fun n c t v => b.tcn tLen g.1 n c t v + res n c t v), g.2)

end GLBGCNBlock

/-- C5: the block's residual branch is selected at construction by exactly
three mutually exclusive cases — constant zero when `residual=False`,
identity when the channel counts match and the stride is 1, and the
learned 1x1-convolution-plus-BatchNorm projection otherwise — and forward
returns `(ReLU(tcn(gcn(x, A)) + residual(x)), A)` with the adjacency
unchanged. -/
theorem GLBGCNBlock.residual_cases_and_forward (b : GLBGCNBlock) :
    (b.residual = false → b.residualBranch = .zero) ∧
    (b.residual = true → b.in_channels = b.out_channels → b.stride = 1 →
      b.residualBranch = .ident) ∧
    (b.residual = true → ¬(b.in_channels = b.out_channels ∧ b.stride = 1) →
      b.residualBranch = .proj b.resConv b.stride b.resBn) ∧
    (∀ tLen V x adj_mat,
      b.forward tLen V x adj_mat =
        (relu4 (fun n c t v =>
          b.tcn tLen (b.gcnUnit.coreForward V tLen x adj_mat).1 n c t v +
            b.residualBranch.apply x n c t v),
         adj_mat)) := by
  refine ⟨?_, ?_, ?_, fun tLen V x adj_mat => rfl⟩
  · intro h
    simp [residualBranch, h]
  · intro h h1 h2
    simp [residualBranch, h, h1, h2]
  · intro h h1
    simp [residualBranch, h, h1]

/-- The possible values of `GLBGCN`'s `pretrained` argument as it is
dynamically typed in Python: a path string, `None`, or a value of any
other type. -/
inductive PretrainedArg where
  | str (path : String)
  | nonePy
  | other

/-- What a module's parameters are initialized with by the scratch branch
of `init_weights` (lines 276-283): Conv2d → `kaiming_init`, Linear →
`normal_init`, BatchNorm → `constant_init(m, 1)`, anything else left
untouched. -/
inductive InitScheme where
  | kaiming
  | normalSmall
  | constantOne
  | untouched
deriving DecidableEq

/-- The kinds of submodule the scratch loop dispatches on. -/
inductive ModuleKind where
  | conv2d
  | linear
  | batchNorm
  | otherModule
deriving DecidableEq

/-- The scratch initialization scheme of lines 277-283. -/
def scratchScheme : ModuleKind → InitScheme
  | .conv2d => .kaiming
  | .linear => .normalSmall
  | .batchNorm => .constantOne
  | .otherModule => .untouched

/-- The externally observable action `init_weights` takes: invoke the
checkpoint-loading collaborator `load_checkpoint(self, path, strict,
logger)` or initialize every parameter from scratch with a scheme per
module kind. -/
inductive InitAction where
  | loadCheckpoint (path : String) (strict : Bool)
  | scratchInit (scheme : ModuleKind → InitScheme)

/-- `GLBGCN.init_weights` (gblgcn.py lines 267-285): a string `pretrained`
loads the checkpoint with `strict=False`; `None` runs the scratch
initialization loop; anything else raises
`TypeError('pretrained must be a str or None')`. -/
def GLBGCN.init_weights : PretrainedArg → Except String InitAction
  | .str path => .ok (.loadCheckpoint path false)
  | .nonePy => .ok (.scratchInit scratchScheme)
  | .other => .error "pretrained must be a str or None"

/-- C8: `init_weights` raises a type error exactly when `pretrained` is
neither a string nor None; a string invokes the checkpoint loader
non-strictly (`strict=False`); None initializes convolutions by the
Kaiming scheme, linear layers by the small-variance normal scheme and
normalization layers to constant one. -/
theorem GLBGCN.init_weights_cases :
    (∀ p, (∃ e, GLBGCN.init_weights p = .error e) ↔
      ((∀ s, p ≠ .str s) ∧ p ≠ .nonePy)) ∧
    (∀ s, GLBGCN.init_weights (.str s) = .ok (.loadCheckpoint s false)) ∧
    (GLBGCN.init_weights .nonePy = .ok (.scratchInit scratchScheme) ∧
      scratchScheme .conv2d = .kaiming ∧
      scratchScheme .linear = .normalSmall ∧
      scratchScheme .batchNorm = .constantOne) := by
  refine ⟨fun p => ?_, fun s => rfl, rfl, rfl, rfl, rfl⟩
  cases p <;> simp [GLBGCN.init_weights]

/-- The node-axis reduction mode validated by `GLBGCN.__init__` (lines
207-209): `'avg'` or `'max'`. -/
inductive Reduction where
  | avg
  | max
deriving DecidableEq

/-- Output channels of the ten `GLBGCNBlock`s (gblgcn.py lines 222-234). -/
def stageOut : Nat → Nat
  | 0 => 64 | 1 => 64 | 2 => 64 | 3 => 64
  | 4 => 128 | 5 => 128 | 6 => 128
  | 7 => 256 | 8 => 256 | _ => 256

/-- Input channels of the ten blocks (lines 222-234). -/
def stageIn (inCh : Nat) : Nat → Nat
  | 0 => inCh | 1 => 64 | 2 => 64 | 3 => 64 | 4 => 64
  | 5 => 128 | 6 => 128 | 7 => 128 | 8 => 256 | _ => 256

/-- Temporal strides of the ten blocks (lines 222-234): stride 2 at stages
4 and 7, stride 1 elsewhere. -/
def stageStride : Nat → Nat
  | 4 => 2 | 7 => 2 | _ => 1

/-- The `residual` flag of the ten blocks: `residual=False` for block 0
(line 224), the default `True` for the rest. -/
def stageResidual : Nat → Bool
  | 0 => false | _ => true

/-- In-features of the ten `feature_transform` linear layers (lines
236-247). -/
def transformIn : Nat → Nat
  | 0 => 32 | 1 => 64 | 2 => 64 | 3 => 64 | 4 => 64
  | 5 => 128 | 6 => 128 | 7 => 128 | 8 => 256 | _ => 256

/-- Out-features of the ten `feature_transform` linear layers (lines
236-247): `Linear(32, in_channels)` at stage 0. -/
def transformOut (inCh : Nat) : Nat → Nat
  | 0 => inCh | 1 => 64 | 2 => 64 | 3 => 64 | 4 => 64
  | 5 => 128 | 6 => 128 | 7 => 128 | 8 => 256 | _ => 256

/-- Out-features of the four `feature_residue` linear layers (lines
249-254): `Linear(32, in_channels)` then three `Linear(32, 64)`. -/
def residueOut (inCh : Nat) : Nat → Nat
  | 0 => inCh | _ => 64

/-- In-features of the four `feature_residue` linear layers (lines
249-254): every one is built with 32 input features. -/
def residueIn : Nat → Nat := fun _ => 32

/-- Shape-relevant construction data of `GLBGCN.__init__`: the declared
`in_channels`, the adjacency buffer's dimensions `K = A.size(0)` and
`nA = A.size(1) = A.size(2)` (the graph collaborator returns a (K, V, V)
stack), the `data_bn` flag and the validated reduction mode. -/
structure GLBGCNShape where
  in_channels : Nat
  K : Nat
  nA : Nat
  data_bn : Bool := true
  reduction : Reduction := .avg

/-- One dimension of `src` broadcasts onto the matching dimension of an
in-place target of size `dst` (the target's size must be kept). -/
def bcastDim (src dst : Nat) : Bool := src == dst || src == 1

/-- Two dimensions are compatible for an out-of-place broadcast binary
operation. -/
def addDim (a b : Nat) : Bool := a == b || a == 1 || b == 1

/-- Result shape of broadcasting two rank-4 shapes against each other, or
`none` when some pair of dimensions is incompatible. -/
def bcast4 (a b : Nat × Nat × Nat × Nat) : Option (Nat × Nat × Nat × Nat) :=
  if addDim a.1 b.1 && addDim a.2.1 b.2.1 && addDim a.2.2.1 b.2.2.1 &&
      addDim a.2.2.2 b.2.2.2 then
    some (max a.1 b.1, max a.2.1 b.2.1, max a.2.2.1 b.2.2.1, max a.2.2.2 b.2.2.2)
  else none

/-- Shape of `self.residual(x)` at stage `s` for a block input of shape
(N, C, T, V), following the three-way selection of lines 75-87: `none`
stands for the scalar `0` returned by the `zero` branch (always
broadcastable); the identity branch keeps the input shape; the learned
projection is a 1x1 conv with stride `(stride, 1)` and no padding. -/
def residualShape (P : GLBGCNShape) (s N C T V : Nat) :
    Option (Nat × Nat × Nat × Nat) :=
  if stageResidual s = false then none
  else if stageIn P.in_channels s = stageOut s ∧ stageStride s = 1 then some (N, C, T, V)
  else some (N, stageOut s, convOutLen 1 0 (stageStride s) T, V)

/-- Shape semantics of `GLBGCNBlock.forward` for the stage-`s` block on an
input of shape (N, C, T, V) with the (K, nA, nA) adjacency: the gcn's
Conv2d requires `C` input channels; the `view` needs the channel count
divisible by K; the einsum contracts the node axis against the adjacency
(`V = nA` or PyTorch raises); the temporal conv (kernel 9, padding 4)
needs a positive output length; finally `tcn(x) + residual(x)` must
broadcast. -/
def blockShape (P : GLBGCNShape) (s N C T V : Nat) :
    Option (Nat × Nat × Nat × Nat) :=
  if C = stageIn P.in_channels s ∧
      P.K * (stageOut s * P.K / P.K) = stageOut s * P.K ∧
      V = P.nA ∧ 1 ≤ T then
    let tcnS := (N, stageOut s, convOutLen 9 4 (stageStride s) T, P.nA)
    match residualShape P s N C T V with
    | none => some tcnS
    | some r => bcast4 r tcnS
  else none

/-- The loop state of `GLBGCN.forward` at shape level: the shapes of
`x_pos` ((N, posC, posT, posV)) and `x_feature` ((N, featC, featT,
featV)), the residue counter `i`, and the shape of the latest block output
`x` (what the method returns after the last stage). -/
structure LoopShape where
  posC : Nat
  posT : Nat
  posV : Nat
  featC : Nat
  featT : Nat
  featV : Nat
  i : Nat
  out : Nat × Nat × Nat × Nat
deriving DecidableEq

/-- Shape semantics of one iteration of the stage loop (gblgcn.py lines
327-341).  `N` is the flattened batch, `t0` the original time length and
`cloneC` the channel count of the cached clone (shape (N, t0, 1, cloneC)
after its permute).  Checks: the `feature_transform` Linear's in-features;
when `i < 4`, the `feature_residue` Linear's 32 in-features and the
in-place `x_feature += ...` broadcast; `torch.cat` along the node axis
(other dims must agree); the block itself; and the final `x[:, :, :, -1]`
which needs a nonempty node axis.  The slice `x[:, :, :, 0:nA-1]` clamps
like Python slicing. -/
def stepShape (P : GLBGCNShape) (N t0 cloneC : Nat) (s : Nat) (st : LoopShape) :
    Option LoopShape :=
  if st.featC = transformIn s then
    if (st.i < 4 →
        (cloneC = residueIn st.i ∧
          bcastDim (residueOut P.in_channels st.i) (transformOut P.in_channels s) = true ∧
          bcastDim t0 st.featT = true ∧ bcastDim 1 st.featV = true)) then
      if st.posC = transformOut P.in_channels s ∧ st.posT = st.featT then
        match blockShape P s N st.posC st.posT (st.posV + st.featV) with
        | none => none
        | some (n2, c2, t2, v2) =>
          if 1 ≤ v2 then
            some { posC := c2, posT := t2, posV := min (P.nA - 1) v2,
                   featC := c2, featT := t2, featV := 1,
                   i := if st.i < 4 then st.i + 1 else st.i,
                   out := (n2, c2, t2, v2) }
          else none
      else none
    else none
  else none

/-- Run `stepShape` over a list of stage indices (the source's
`zip(self.st_gcn_networks, self.edge_importance, self.feature_transform)`
loop iterates the stages 0..9 in order). -/
def loopShape (P : GLBGCNShape) (N t0 cloneC : Nat) :
    List Nat → LoopShape → Option LoopShape
  | [], st => some st
  | s :: rest, st =>
    match stepShape P N t0 cloneC s st with
    | none => none
    | some st2 => loopShape P N t0 cloneC rest st2

/-- Shape semantics of `GLBGCN.forward` (gblgcn.py lines 287-342) on an
input of shape (n, c, t, v, m).  The channel slices give `x_pos` the first
`min in_channels c` channels and `x_feature` the rest; `data_bn_feature`
is `BatchNorm1d(32 * (nA - 1))` and `data_bn` is
`BatchNorm1d(in_channels * (nA - 1))` (lines 216-219), applied to the
(n*m, v*channels, t) views when `data_bn` is set; `torch.amax` needs a
nonempty node axis.  Returns the shape of the returned tensor, or `none`
where PyTorch would raise. -/
def forwardShape (P : GLBGCNShape) (n c t v m : Nat) :
    Option (Nat × Nat × Nat × Nat) :=
  let N := n * m
  let posC := min P.in_channels c
  let featC := c - min P.in_channels c
  if (P.data_bn = true → v * featC = 32 * (P.nA - 1)) then
    if (P.reduction = .max → 1 ≤ v) then
      if (P.data_bn = true → v * posC = P.in_channels * (P.nA - 1)) then
        Option.map (fun st => st.out)
          (loopShape P N t featC (List.range 10)
            { posC := posC, posT := t, posV := v, featC := featC, featT := t,
              featV := 1, i := 0, out := (N, 0, 0, 0) })
      else none
    else none
  else none

/-- The channel count `out * K` of the gcn conv splits exactly into
`(K, (out * K) / K)`, also in the degenerate `K = 0` case. -/
lemma mulDivK (K o : Nat) : K * (o * K / K) = o * K := by
  rcases Nat.eq_zero_or_pos K with h | h
  · simp [h]
  · rw [Nat.mul_div_cancel _ h, Nat.mul_comm]

/-- C1: for every valid input of shape (n, in_channels + 32, t, v, m) with
the adjacency holding `v + 1` nodes, `GLBGCN.forward` produces a tensor of
shape (n*m, 256, T2, v + 1), where T2 is the result of applying the
stride-2 temporal reduction of the kernel-9, padding-4 conv exactly twice
(the stride-2 stages are stages 4 and 7 by `stageStride`).  Instantiated
at (2, 3+32, 30, 25, 2) this gives (4, 256, 8, 26). -/
theorem GLBGCN.forward_output_shape (P : GLBGCNShape) (n t v m : Nat)
    (hA : P.nA = v + 1) (hT : 1 ≤ t) (hv : 1 ≤ v) :
    forwardShape P n (P.in_channels + 32) t v m =
      some (n * m, 256, convOutLen 9 4 2 (convOutLen 9 4 2 t), v + 1) := by
  have hposC : min P.in_channels (P.in_channels + 32) = P.in_channels := by omega
  have hfeatC : P.in_channels + 32 - min P.in_channels (P.in_channels + 32) = 32 := by omega
  have hmin : min (v + 1 - 1) (v + 1) = v := by omega
  have hbn1 : v * 32 = 32 * (v + 1 - 1) := by omega
  have hbn2 : v * P.in_channels = P.in_channels * (v + 1 - 1) := by
    rw [Nat.add_sub_cancel, Nat.mul_comm]
  have e1 : ∀ T, 1 ≤ T → convOutLen 9 4 1 T = T := by
    intro T h; unfold convOutLen; omega
  have e2 : ∀ T, convOutLen 1 0 2 T = convOutLen 9 4 2 T := by
    intro T; unfold convOutLen; omega
  have e3 : ∀ T, 1 ≤ convOutLen 9 4 2 T := fun T => Nat.le_add_left 1 _
  set t1 := convOutLen 9 4 2 t with ht1
  set t2 := convOutLen 9 4 2 t1 with ht2
  have hs0 : stepShape P (n * m) t 32 0
      ⟨P.in_channels, t, v, 32, t, 1, 0, (n * m, 0, 0, 0)⟩ =
      some ⟨64, t, v, 64, t, 1, 1, (n * m, 64, t, v + 1)⟩ := by
    simp [stepShape, blockShape, residualShape, bcast4, bcastDim, addDim,
      transformIn, transformOut, stageIn, stageOut, stageStride, stageResidual,
      residueOut, residueIn, mulDivK, hA, hmin, hT, e1 t hT]
  have hs1 : stepShape P (n * m) t 32 1
      ⟨64, t, v, 64, t, 1, 1, (n * m, 64, t, v + 1)⟩ =
      some ⟨64, t, v, 64, t, 1, 2, (n * m, 64, t, v + 1)⟩ := by
    simp [stepShape, blockShape, residualShape, bcast4, bcastDim, addDim,
      transformIn, transformOut, stageIn, stageOut, stageStride, stageResidual,
      residueOut, residueIn, mulDivK, hA, hmin, hT, e1 t hT]
  have hs2 : stepShape P (n * m) t 32 2
      ⟨64, t, v, 64, t, 1, 2, (n * m, 64, t, v + 1)⟩ =
      some ⟨64, t, v, 64, t, 1, 3, (n * m, 64, t, v + 1)⟩ := by
    simp [stepShape, blockShape, residualShape, bcast4, bcastDim, addDim,
      transformIn, transformOut, stageIn, stageOut, stageStride, stageResidual,
      residueOut, residueIn, mulDivK, hA, hmin, hT, e1 t hT]
  have hs3 : stepShape P (n * m) t 32 3
      ⟨64, t, v, 64, t, 1, 3, (n * m, 64, t, v + 1)⟩ =
      some ⟨64, t, v, 64, t, 1, 4, (n * m, 64, t, v + 1)⟩ := by
    simp [stepShape, blockShape, residualShape, bcast4, bcastDim, addDim,
      transformIn, transformOut, stageIn, stageOut, stageStride, stageResidual,
      residueOut, residueIn, mulDivK, hA, hmin, hT, e1 t hT]
  have hs4 : stepShape P (n * m) t 32 4
      ⟨64, t, v, 64, t, 1, 4, (n * m, 64, t, v + 1)⟩ =
      some ⟨128, t1, v, 128, t1, 1, 4, (n * m, 128, t1, v + 1)⟩ := by
    simp [stepShape, blockShape, residualShape, bcast4, bcastDim, addDim,
      transformIn, transformOut, stageIn, stageOut, stageStride, stageResidual,
      residueOut, residueIn, mulDivK, hA, hmin, hT, e2 t]
  have hs5 : stepShape P (n * m) t 32 5
      ⟨128, t1, v, 128, t1, 1, 4, (n * m, 128, t1, v + 1)⟩ =
      some ⟨128, t1, v, 128, t1, 1, 4, (n * m, 128, t1, v + 1)⟩ := by
    simp [stepShape, blockShape, residualShape, bcast4, bcastDim, addDim,
      transformIn, transformOut, stageIn, stageOut, stageStride, stageResidual,
      residueOut, residueIn, mulDivK, hA, hmin, e3 t, e1 t1 (e3 t)]
  have hs6 : stepShape P (n * m) t 32 6
      ⟨128, t1, v, 128, t1, 1, 4, (n * m, 128, t1, v + 1)⟩ =
      some ⟨128, t1, v, 128, t1, 1, 4, (n * m, 128, t1, v + 1)⟩ := by
    simp [stepShape, blockShape, residualShape, bcast4, bcastDim, addDim,
      transformIn, transformOut, stageIn, stageOut, stageStride, stageResidual,
      residueOut, residueIn, mulDivK, hA, hmin, e3 t, e1 t1 (e3 t)]
  have hs7 : stepShape P (n * m) t 32 7
      ⟨128, t1, v, 128, t1, 1, 4, (n * m, 128, t1, v + 1)⟩ =
      some ⟨256, t2, v, 256, t2, 1, 4, (n * m, 256, t2, v + 1)⟩ := by
    simp [stepShape, blockShape, residualShape, bcast4, bcastDim, addDim,
      transformIn, transformOut, stageIn, stageOut, stageStride, stageResidual,
      residueOut, residueIn, mulDivK, hA, hmin, e3 t, e2 t1]
  have hs8 : stepShape P (n * m) t 32 8
      ⟨256, t2, v, 256, t2, 1, 4, (n * m, 256, t2, v + 1)⟩ =
      some ⟨256, t2, v, 256, t2, 1, 4, (n * m, 256, t2, v + 1)⟩ := by
    simp [stepShape, blockShape, residualShape, bcast4, bcastDim, addDim,
      transformIn, transformOut, stageIn, stageOut, stageStride, stageResidual,
      residueOut, residueIn, mulDivK, hA, hmin, e3 t1, e1 t2 (e3 t1)]
  have hs9 : stepShape P (n * m) t 32 9
      ⟨256, t2, v, 256, t2, 1, 4, (n * m, 256, t2, v + 1)⟩ =
      some ⟨256, t2, v, 256, t2, 1, 4, (n * m, 256, t2, v + 1)⟩ := by
    simp [stepShape, blockShape, residualShape, bcast4, bcastDim, addDim,
      transformIn, transformOut, stageIn, stageOut, stageStride, stageResidual,
      residueOut, residueIn, mulDivK, hA, hmin, e3 t1, e1 t2 (e3 t1)]
  have hrange : List.range 10 = [0, 1, 2, 3, 4, 5, 6, 7, 8, 9] := rfl
  have hfeatC2 : P.in_channels + 32 - P.in_channels = 32 := by omega
  simp only [forwardShape, hposC, hfeatC, hfeatC2, hA, hrange, loopShape]
  simp only [hs0, hs1, hs2, hs3, hs4, hs5, hs6, hs7, hs8, hs9]
  simp [hbn1, hbn2, hv]

/-- A concrete construction matching the end-to-end scenario: `in_channels
= 3`, a graph with 26 nodes (the 25 skeletal joints plus the virtual
feature node) and 3 adjacency partitions, defaults elsewhere. -/
def shapeSample : GLBGCNShape := { in_channels := 3, K := 3, nA := 26 }

/-- Witness for C1: the end-to-end scenario (2, 3+32, 30, 25, 2) with
reduction `avg` yields output shape (4, 256, 8, 26). -/
theorem GLBGCN.forward_output_shape_witness :
    forwardShape shapeSample 2 35 30 25 2 = some (4, 256, 8, 26) := by
  have h := GLBGCN.forward_output_shape shapeSample 2 30 25 2 rfl (by decide) (by decide)
  exact h

/-- A successful `loopShape` run over `s :: rest` starts with a successful
step at stage `s`. -/
lemma loopShape_cons_some {P : GLBGCNShape} {N t0 cloneC s : Nat} {rest : List Nat}
    {st r : LoopShape} (h : loopShape P N t0 cloneC (s :: rest) st = some r) :
    ∃ st2, stepShape P N t0 cloneC s st = some st2 ∧
      loopShape P N t0 cloneC rest st2 = some r := by
  unfold loopShape at h
  rcases hs : stepShape P N t0 cloneC s st with _ | st2
  · simp [hs] at h
  · rw [hs] at h
    exact ⟨st2, rfl, h⟩

/-- A successful `stepShape` implies the transform Linear's in-feature
check, the cat channel check against the transform's out-features, and a
successful block-shape computation. -/
lemma stepShape_some_conds {P : GLBGCNShape} {N t0 cloneC s : Nat}
    {st st2 : LoopShape} (h : stepShape P N t0 cloneC s st = some st2) :
    st.featC = transformIn s ∧ st.posC = transformOut P.in_channels s ∧
      ∃ q, blockShape P s N st.posC st.posT (st.posV + st.featV) = some q := by
  unfold stepShape at h
  by_cases h1 : st.featC = transformIn s
  · rw [if_pos h1] at h
    by_cases h2 : st.i < 4 →
        (cloneC = residueIn st.i ∧
          bcastDim (residueOut P.in_channels st.i) (transformOut P.in_channels s) = true ∧
          bcastDim t0 st.featT = true ∧ bcastDim 1 st.featV = true)
    · rw [if_pos h2] at h
      by_cases h3 : st.posC = transformOut P.in_channels s ∧ st.posT = st.featT
      · rw [if_pos h3] at h
        rcases hb : blockShape P s N st.posC st.posT (st.posV + st.featV) with _ | q
        · rw [hb] at h
          simp at h
        · exact ⟨h1, h3.1, q, by simp [hb]⟩
      · rw [if_neg h3] at h
        simp at h
    · rw [if_neg h2] at h
      simp at h
  · rw [if_neg h1] at h
    simp at h

/-- A successful `blockShape` implies its input checks: the gcn conv's
channel count, the einsum's node-dimension agreement with the adjacency,
and a positive temporal length. -/
lemma blockShape_some_conds {P : GLBGCNShape} {s N C T V : Nat}
    {q : Nat × Nat × Nat × Nat} (h : blockShape P s N C T V = some q) :
    C = stageIn P.in_channels s ∧ V = P.nA ∧ 1 ≤ T := by
  unfold blockShape at h
  split_ifs at h with hc
  exact ⟨hc.1, hc.2.2.1, hc.2.2.2⟩

/-- C9: `GLBGCN.forward` is shape-correct only for inputs whose node count
`v` satisfies `v + 1 = A.size(1)`: the externally supplied adjacency must
already include the extra virtual node for the fused feature.  (The
stage-0 einsum contracts the concatenated `v + 1` nodes against the
adjacency's node dimension.) -/
theorem GLBGCN.forward_requires_virtual_node (P : GLBGCNShape)
    (n c t v m : Nat) (out : Nat × Nat × Nat × Nat)
    (h : forwardShape P n c t v m = some out) : v + 1 = P.nA := by
  simp only [forwardShape] at h
  split_ifs at h with h1 h2 h3
  rw [Option.map_eq_some'] at h
  obtain ⟨stF, hl, _⟩ := h
  rw [show List.range 10 = 0 :: [1, 2, 3, 4, 5, 6, 7, 8, 9] from rfl] at hl
  obtain ⟨st1, hstep, _⟩ := loopShape_cons_some hl
  obtain ⟨_, _, q, hb⟩ := stepShape_some_conds hstep
  exact (blockShape_some_conds hb).2.1

/-- Witness for C9: the end-to-end scenario succeeds and its node count 25
satisfies 25 + 1 = 26 = A.size(1). -/
theorem GLBGCN.forward_requires_virtual_node_witness :
    forwardShape shapeSample 2 35 30 25 2 = some (4, 256, 8, 26) ∧
      25 + 1 = shapeSample.nA :=
  ⟨by decide,
   GLBGCN.forward_requires_virtual_node shapeSample 2 35 30 25 2
     (4, 256, 8, 26) (by decide)⟩

/-- C10: the auxiliary feature stream's channel count is fixed at exactly
32: `GLBGCN.forward` is shape-correct only when the input channel count
equals `in_channels + 32` (the stage-0 `feature_transform` Linear has 32
in-features and the cat requires the pose slice to hold the full
`in_channels`), so any other auxiliary channel count fails with a shape
error. -/
theorem GLBGCN.forward_requires_32_feature_channels (P : GLBGCNShape)
    (n c t v m : Nat) (out : Nat × Nat × Nat × Nat)
    (h : forwardShape P n c t v m = some out) : c = P.in_channels + 32 := by
  simp only [forwardShape] at h
  split_ifs at h with h1 h2 h3
  rw [Option.map_eq_some'] at h
  obtain ⟨stF, hl, _⟩ := h
  rw [show List.range 10 = 0 :: [1, 2, 3, 4, 5, 6, 7, 8, 9] from rfl] at hl
  obtain ⟨st1, hstep, _⟩ := loopShape_cons_some hl
  obtain ⟨hfeat, hpos, _⟩ := stepShape_some_conds hstep
  have hfeat2 : c - min P.in_channels c = 32 := hfeat
  have hpos2 : min P.in_channels c = P.in_channels := hpos
  omega

/-- Witness for C10: the end-to-end scenario succeeds and its channel
count satisfies 35 = 3 + 32. -/
theorem GLBGCN.forward_requires_32_feature_channels_witness :
    forwardShape shapeSample 2 35 30 25 2 = some (4, 256, 8, 26) ∧
      35 = shapeSample.in_channels + 32 :=
  ⟨by decide,
   GLBGCN.forward_requires_32_feature_channels shapeSample 2 35 30 25 2
     (4, 256, 8, 26) (by decide)⟩

/-- An `nn.Linear(inF, outF)` layer, applied to the last axis of a rank-4
tensor (as the transform and residue projections are after their
permutes): `out[..., j] = bias j + Σ_{i < inF} weight j i * x[..., i]`. -/
structure LinearParams where
  inF : Nat
  weight : Nat → Nat → ℚ
  bias : Nat → ℚ

/-- Apply a Linear to the last axis. -/
def LinearParams.apply (L : LinearParams) (x : Tensor4) : Tensor4 :=
  fun n a b j => L.bias j + ∑ i ∈ Finset.range L.inF, L.weight j i * x n a b i

/-- One entry of `self.edge_importance` (gblgcn.py lines 256-263): with
`edge_importance_weighting=True` a learnable tensor of A's shape
(initialized to ones), otherwise the Python integer 1. -/
inductive EdgeImportance where
  | scalar (q : ℚ)
  | tensor (w : Tensor3)

/-- `self.A * importance` (line 338): elementwise product with a tensor,
or scalar multiplication by the Python number. -/
def applyImportance (A : Tensor3) : EdgeImportance → Tensor3
  | .scalar q => fun k v w => A k v w * q
  | .tensor t => fun k v w => A k v w * t k v w

/-- The construction-time initialization of `self.edge_importance` (lines
256-263): one all-ones tensor per block when weighting is enabled, the
number 1 per block otherwise. -/
def initEdgeImportance (weighting : Bool) : Nat → EdgeImportance :=
  fun _ => if weighting then .tensor (fun _ _ _ => 1) else .scalar 1

/-- The weights owned by one `GLBGCNBlock` instance. -/
structure BlockWeights where
  gcnW : Nat → Nat → Nat → ℚ
  gcnB : Nat → ℚ
  bn1 : BatchNormParams
  tcnW : Nat → Nat → Nat → ℚ
  tcnB : Nat → ℚ
  bn2 : BatchNormParams
  resConvW : Nat → Nat → ℚ
  resConvB : Nat → ℚ
  resBn : BatchNormParams

/-- Construction data and weights of a `GLBGCN` instance (gblgcn.py lines
191-265): the adjacency buffer A (shape (K, nA, nA)), the two
BatchNorm1d layers (eval-mode affine coefficients indexed by the
flattened `node * channelCount + channel` axis of the `(n*m, v*c, t)`
view), the ten blocks' weights, the ten `feature_transform` and four
`feature_residue` Linear weights, and the per-block edge importance. -/
structure GLBGCNParams where
  in_channels : Nat
  K : Nat
  nA : Nat
  A : Tensor3
  reduction : Reduction
  data_bn : Bool
  dataBn : BatchNormParams
  dataBnFeature : BatchNormParams
  blocks : Nat → BlockWeights
  transformW : Nat → Nat → Nat → ℚ
  transformB : Nat → Nat → ℚ
  residueW : Nat → Nat → Nat → ℚ
  residueB : Nat → Nat → ℚ
  importance : Nat → EdgeImportance

/-- `self.feature_transform[s]`: a Linear with the in-features of the
stage-`s` entry of the table at lines 236-247. -/
def GLBGCNParams.transformLinear (P : GLBGCNParams) (s : Nat) : LinearParams :=
  { inF := transformIn s, weight := P.transformW s, bias := P.transformB s }

/-- `self.feature_residue[i]`: a Linear with 32 in-features (lines
249-254). -/
def GLBGCNParams.residueLinear (P : GLBGCNParams) (i : Nat) : LinearParams :=
  { inF := residueIn i, weight := P.residueW i, bias := P.residueB i }

/-- The stage-`s` block as built at lines 222-234: channel schedule
`stageIn`/`stageOut`, kernel `(9, K)`, stride `stageStride`, and
`residual=False` exactly for block 0. -/
def GLBGCNParams.block (P : GLBGCNParams) (s : Nat) : GLBGCNBlock :=
  { in_channels := stageIn P.in_channels s, out_channels := stageOut s,
    kernel_size := (9, P.K), stride := stageStride s,
    residual := stageResidual s,
    gcnW := (P.blocks s).gcnW, gcnB := (P.blocks s).gcnB,
    bn1 := (P.blocks s).bn1, tcnW := (P.blocks s).tcnW,
    tcnB := (P.blocks s).tcnB, bn2 := (P.blocks s).bn2,
    resConvW := (P.blocks s).resConvW, resConvB := (P.blocks s).resConvB,
    resBn := (P.blocks s).resBn }

/-- The batch flattening produced by `permute(0, 4, 3, 1, 2)` followed by
`view(n * m, v * c, t)` and the inverse reshapes (lines 300-305 and
319-324): sample `nm` of the flat batch is instance `nm % m` of clip
`nm / m`. -/
def flatten5 (m : Nat) (xf : Tensor5) : Tensor4 :=
  fun nm ch tt vv => xf (nm / m) ch tt vv (nm % m)

/-- The data-normalization pipeline applied to a stream (lines 298-305 for
the feature stream, 317-324 for the pose stream): permute to N M V C T,
flatten to `(n*m, v*cnt, t)`, apply the BatchNorm1d (eval-mode affine on
the flat `vv * cnt + ch` channel) when `data_bn` is set (`identity`
otherwise, line 216-219), and reshape back to `(n*m, cnt, t, v)`. -/
def dataBnApply (data_bn : Bool) (bn : BatchNormParams) (cnt m : Nat)
    (xf : Tensor5) : Tensor4 :=
  if data_bn then
    fun nm ch tt vv =>
      bn.scale (vv * cnt + ch) * flatten5 m xf nm ch tt vv + bn.shift (vv * cnt + ch)
  else flatten5 m xf

/-- Lines 307-310: `torch.mean(x, dim=3, keepdim=True)` or
`torch.amax(x, dim=3, keepdim=True)` over the `v` graph nodes.  For the
max, the fold over `[x .. 0, ..., x .. (v-1)]` starting from `x .. 0`
is the maximum of the `v` entries whenever `v ≥ 1` (PyTorch rejects an
empty reduction dimension). -/
def reduceNode (r : Reduction) (v : Nat) (x : Tensor4) : Tensor4 :=
  match r with
  | .avg => fun nm ch tt _ => (∑ vv ∈ Finset.range v, x nm ch tt vv) / (v : ℚ)
  | .max => fun nm ch tt _ =>
      ((List.range v).map (fun vv => x nm ch tt vv)).foldr max (x nm ch tt 0)

/-- The state of `GLBGCN.forward`'s stage loop: the two streams, the
cached clone (`x_feature_clone` after its `permute(0, 2, 3, 1)`, line
313-314), the residue counter `i` (line 327), the current time length and
pose node count (bookkeeping for the conv padding bound and the cat
position), and the latest block output `x` (returned after the loop). -/
structure LoopState where
  xpos : Tensor4
  xfeat : Tensor4
  clone : Tensor4
  i : Nat
  tcur : Nat
  vpos : Nat
  lastX : Tensor4

namespace GLBGCN

/-- One iteration of the stage loop (gblgcn.py lines 328-340): permute the
feature stream to put channels last, apply `feature_transform[s]`, permute
back; when `i < len(self.feature_residue)` add `feature_residue[i]` of the
cached clone (permuted back to channel-first) in place and increment `i`;
concatenate the streams along the node axis; run the block on the
importance-scaled adjacency; re-split into the first `nA - 1` nodes and
the last node.  The in-place `x_feature += ...` targets the tensor
produced by the transform Linear (a fresh tensor), so it cannot alias the
clone; the functional update models exactly that. -/
def stepV (P : GLBGCNParams) (s : Nat) (st : LoopState) : LoopState :=
  let xf1 : Tensor4 := fun nm tt ww ch => st.xfeat nm ch tt ww
  let xf2 := (P.transformLinear s).apply xf1
  let xf3 : Tensor4 := fun nm ch tt ww => xf2 nm tt ww ch
  let xf4 : Tensor4 :=
    if st.i < 4 then
      fun nm ch tt ww =>
        xf3 nm ch tt ww + (P.residueLinear st.i).apply st.clone nm tt ww ch
    else xf3
  let i2 := if st.i < 4 then st.i + 1 else st.i
  let catX : Tensor4 := fun nm ch tt ww =>
    if ww < st.vpos then st.xpos nm ch tt ww else xf4 nm ch tt (ww - st.vpos)
  let y := ((P.block s).forward st.tcur (st.vpos + 1) catX
    (applyImportance P.A (P.importance s))).1
  { xpos := y,
    xfeat := fun nm ch tt _ => y nm ch tt (P.nA - 1),
    clone := st.clone,
    i := i2,
    tcur := convOutLen 9 4 (stageStride s) st.tcur,
    vpos := P.nA - 1,
    lastX := y }

/-- The state entering the loop (lines 295-324): slice off the feature
channels, normalize and node-reduce the feature stream, cache the clone
(permuted), normalize the pose stream.  `x_pos = x[:, 0:in_channels]`
keeps the same indices, so the pose slice is `x` itself at value level. -/
def initState (P : GLBGCNParams) (c t v m : Nat) (x : Tensor5) : LoopState :=
  let xfeat5 : Tensor5 := fun a b tt vv mm => x a (P.in_channels + b) tt vv mm
  let featC := c - min P.in_channels c
  let xfR := reduceNode P.reduction v
    (dataBnApply P.data_bn P.dataBnFeature featC m xfeat5)
  { xpos := dataBnApply P.data_bn P.dataBn P.in_channels m x,
    xfeat := xfR,
    clone := fun nm tt ww ch => xfR nm ch tt ww,
    i := 0,
    tcur := t,
    vpos := v,
    lastX := fun _ _ _ _ => 0 }

/-- Run the first `count` stages of the loop (the source iterates the ten
stages 0..9 in order via `zip`). -/
def runLoop (P : GLBGCNParams) (count : Nat) (st : LoopState) : LoopState :=
  (List.range count).foldl (fun s2 s => stepV P s s2) st

/-- Value semantics of `GLBGCN.forward` (lines 287-342) on an input of
shape (n, c, t, v, m): run all ten stages and return the final block
output `x`. -/
def forwardV (P : GLBGCNParams) (c t v m : Nat) (x : Tensor5) : Tensor4 :=
  (runLoop P 10 (initState P c t v m x)).lastX

/-- The specification-side reading of one loop iteration: the residue is
dispatched on the stage index itself — applied exactly when `s < 4`, with
`feature_residue[s]` — rather than on the running counter `i` (which the
spec-side step keeps at its closed form `min (s+1) 4`). -/
def stepSpec (P : GLBGCNParams) (s : Nat) (st : LoopState) : LoopState :=
  let xf1 : Tensor4 := fun nm tt ww ch => st.xfeat nm ch tt ww
  let xf2 := (P.transformLinear s).apply xf1
  let xf3 : Tensor4 := fun nm ch tt ww => xf2 nm tt ww ch
  let xf4 : Tensor4 :=
    if s < 4 then
      fun nm ch tt ww =>
        xf3 nm ch tt ww + (P.residueLinear s).apply st.clone nm tt ww ch
    else xf3
  let catX : Tensor4 := fun nm ch tt ww =>
    if ww < st.vpos then st.xpos nm ch tt ww else xf4 nm ch tt (ww - st.vpos)
  let y := ((P.block s).forward st.tcur (st.vpos + 1) catX
    (applyImportance P.A (P.importance s))).1
  { xpos := y,
    xfeat := fun nm ch tt _ => y nm ch tt (P.nA - 1),
    clone := st.clone,
    i := min (s + 1) 4,
    tcur := convOutLen 9 4 (stageStride s) st.tcur,
    vpos := P.nA - 1,
    lastX := y }

/-- Unrolling one stage off the right end of the loop. -/
lemma runLoop_succ (P : GLBGCNParams) (s : Nat) (st : LoopState) :
    runLoop P (s + 1) st = stepV P s (runLoop P s st) := by
  unfold runLoop
  rw [List.range_succ, List.foldl_append]
  rfl

/-- The residue counter after `s` stages is `min s 4`. -/
lemma runLoop_counter (P : GLBGCNParams) (st : LoopState) (h : st.i = 0) :
    ∀ s, (runLoop P s st).i = min s 4 := by
  intro s
  induction s with
  | zero => simpa [runLoop] using h
  | succ s ih =>
    rw [runLoop_succ]
    have : (stepV P s (runLoop P s st)).i =
        if (runLoop P s st).i < 4 then (runLoop P s st).i + 1
        else (runLoop P s st).i := rfl
    rw [this, ih]
    split_ifs <;> omega

/-- When the counter sits at its invariant value, the source step agrees
with the stage-index-dispatched step. -/
lemma stepV_eq_stepSpec (P : GLBGCNParams) (s : Nat) (st : LoopState)
    (hi : st.i = min s 4) : stepV P s st = stepSpec P s st := by
  by_cases h : s < 4
  · have hi2 : st.i = s := by omega
    have hmin : min (s + 1) 4 = s + 1 := by omega
    simp [stepV, stepSpec, hi2, h, hmin]
  · have hi2 : st.i = 4 := by omega
    have h2 : ¬(4 : Nat) < 4 := by omega
    have hmin : min (s + 1) 4 = 4 := by omega
    simp [stepV, stepSpec, hi2, h, h2, hmin]

/-- The loop step reads `feature_residue` only at indices below 4 (the
list's length), so residue entries beyond the first four cannot influence
it. -/
lemma stepV_residue_congr (P : GLBGCNParams) (W2 : Nat → Nat → Nat → ℚ)
    (B2 : Nat → Nat → ℚ) (hW : ∀ j, j < 4 → W2 j = P.residueW j)
    (hB : ∀ j, j < 4 → B2 j = P.residueB j) (s : Nat) (st : LoopState) :
    stepV { P with residueW := W2, residueB := B2 } s st = stepV P s st := by
  by_cases h : st.i < 4
  · simp [stepV, h, GLBGCNParams.residueLinear, GLBGCNParams.transformLinear,
      GLBGCNParams.block, hW st.i h, hB st.i h]
  · simp [stepV, h, GLBGCNParams.transformLinear, GLBGCNParams.block]

/-- C3: in `GLBGCN.forward`'s 10-stage loop the residue projection is
applied at exactly the stages 0-3 and with `feature_residue[s] = s` there:
the counter `i` equals `min s 4` at the start of stage `s`, every stage
step agrees with the stage-index-dispatched `stepSpec` (which adds
`feature_residue[s]` exactly when `s < 4`), and replacing the residue
weights at any index ≥ 4 leaves the forward output unchanged — the output
depends on the residue parameters only through the first four stages. -/
theorem residue_stage_boundary (P : GLBGCNParams) (c t v m : Nat)
    (x : Tensor5) :
    (∀ s, (runLoop P s (initState P c t v m x)).i = min s 4) ∧
    (∀ s, runLoop P (s + 1) (initState P c t v m x) =
      stepSpec P s (runLoop P s (initState P c t v m x))) ∧
    (∀ W2 B2, (∀ j, j < 4 → W2 j = P.residueW j) →
      (∀ j, j < 4 → B2 j = P.residueB j) →
      forwardV { P with residueW := W2, residueB := B2 } c t v m x =
        forwardV P c t v m x) := by
  have hc := runLoop_counter P (initState P c t v m x) rfl
  refine ⟨hc, fun s => ?_, fun W2 B2 hW hB => ?_⟩
  · rw [runLoop_succ, stepV_eq_stepSpec P s _ (hc s)]
  · have hf : (fun (s2 : LoopState) (s : Nat) =>
        stepV { P with residueW := W2, residueB := B2 } s s2) =
        fun s2 s => stepV P s s2 := by
      funext s2 s
      exact stepV_residue_congr P W2 B2 hW hB s s2
    unfold forwardV runLoop
    rw [show initState { P with residueW := W2, residueB := B2 } c t v m x =
      initState P c t v m x from rfl, hf]

/-- C4: with edge-importance weighting enabled and the importance
parameters at their construction-time all-ones initialization, the
adjacency passed to every block equals the raw adjacency — exactly as in
the disabled mode, whose Python scalar 1 also leaves it unchanged — and
the two constructions produce identical forward outputs on every input. -/
theorem edge_importance_ones_identity (P : GLBGCNParams)
    (c t v m : Nat) (x : Tensor5) :
    (∀ s, applyImportance P.A (initEdgeImportance true s) = P.A) ∧
    (∀ s, applyImportance P.A (initEdgeImportance false s) = P.A) ∧
    forwardV { P with importance := initEdgeImportance true } c t v m x =
      forwardV { P with importance := initEdgeImportance false } c t v m x := by
  refine ⟨fun s => ?_, fun s => ?_, rfl⟩
  · funext k vv ww
    simp [applyImportance, initEdgeImportance]
  · funext k vv ww
    simp [applyImportance, initEdgeImportance]

/-- C6: the cached feature clone is captured exactly once before the
stage loop, from the normalized, node-reduced feature stream, and no loop
iteration modifies it: after any number of stages the state's clone is
still the initial one, so all residue projections (which read the state's
clone, stages 0-3) are applied to the identical cached value.  The
source's in-place `x_feature += ...` targets the fresh tensor returned by
the transform Linear, never the clone's storage; the step's functional
update captures that observable behavior. -/
theorem clone_captured_once (P : GLBGCNParams) (c t v m : Nat)
    (x : Tensor5) :
    ((initState P c t v m x).clone = fun nm tt ww ch =>
      reduceNode P.reduction v
        (dataBnApply P.data_bn P.dataBnFeature (c - min P.in_channels c) m
          (fun a b tt2 vv mm => x a (P.in_channels + b) tt2 vv mm)) nm ch tt ww) ∧
    (∀ s, (runLoop P s (initState P c t v m x)).clone =
      (initState P c t v m x).clone) ∧
    (∀ s1 s2, (runLoop P s1 (initState P c t v m x)).clone =
      (runLoop P s2 (initState P c t v m x)).clone) := by
  have hinv : ∀ s, (runLoop P s (initState P c t v m x)).clone =
      (initState P c t v m x).clone := by
    intro s
    induction s with
    | zero => rfl
    | succ s ih =>
      rw [runLoop_succ]
      exact ih
  exact ⟨rfl, hinv, fun s1 s2 => (hinv s1).trans (hinv s2).symm⟩

end GLBGCN
